import Mathlib

/-!
Verification of the subscription-manager backend against its specification.

The Python sources are shallowly embedded below:
* `app/claude_service.py` — the subscription detector (JSON candidate
  validation, fallback list, parse control flow);
* `app/database.py`      — the in-memory record store (association lists
  standing for Python dicts, which preserve insertion order);
* `app/main.py`          — the aggregation endpoints (unused subscriptions,
  subscription insights);
* `app/stripe_service.py` — the payment adapter, with an exact model of
  IEEE-754 double rounding for the price table arithmetic.

Python `datetime` values are modelled as integer timestamps in seconds;
`timedelta(days = d)` is `d * 86400` seconds and `timedelta.days` is floor
division by 86400, matching Python's normalisation.  Python floats are
modelled as rationals; where float rounding is observable (the payment
adapter's `int(amount * 100)`) the embedding rounds every literal and every
product to the nearest IEEE-754 double explicitly.
-/

namespace SubManager

/-- A JSON value as produced by `json.loads`.  Python treats `bool` as a
subclass of `int`, so boolean values pass `isinstance(x, (int, float))`;
numbers are modelled as exact rationals (no float arithmetic is performed on
them by the detector, only comparisons).  Nested arrays and objects are never
inspected by the validation code, so they are carried as opaque tags. -/
inductive JValue where
  | null
  | bool (b : Bool)
  | num (q : ℚ)
  | str (s : String)
  | arr (tag : Nat)
  | obj (tag : Nat)
deriving DecidableEq, Repr

/-- Python's `isinstance(x, (int, float))`: true for numbers and booleans
(`bool` is a subclass of `int` in Python). -/
def JValue.isNumeric : JValue → Bool
  | .num _ => true
  | .bool _ => true
  | _ => false

/-- The numeric value of a Python number; `True` counts as 1 and `False`
as 0, matching Python's `bool` arithmetic. -/
def JValue.numVal : JValue → ℚ
  | .num q => q
  | .bool b => if b then 1 else 0
  | _ => 0

/-- A candidate subscription object from the detector response
(`claude_service.py`).  A field that is absent from the JSON object is
`none`; a field bound to JSON `null` is `some JValue.null` (it passes the
`field not in sub` presence check). -/
structure Candidate where
  name : Option JValue
  company : Option JValue
  amount : Option JValue
  billing_cycle : Option JValue
  category : Option JValue
  confidence : Option JValue
deriving DecidableEq, Repr

/-- `valid_categories` from `_validate_subscription`. -/
def valid_categories : List String :=
  ["streaming", "software", "utilities", "fitness", "insurance", "telecom",
   "news", "gaming", "other"]

/-- `valid_cycles` from `_validate_subscription`. -/
def valid_cycles : List String := ["monthly", "yearly", "weekly"]

/-- The `for field in required_fields: if field not in sub: return False`
loop: all six required fields are present. -/
def requiredPresent (c : Candidate) : Bool :=
  c.name.isSome && c.company.isSome && c.amount.isSome &&
    c.billing_cycle.isSome && c.category.isSome && c.confidence.isSome

/-- `if sub['category'] not in valid_categories: sub['category'] = 'other'`.
A non-string value is never equal to any category string, so it is replaced
by `"other"` as well. -/
def repairCategory (v : Option JValue) : Option JValue :=
  match v with
  | some (JValue.str s) =>
      if valid_categories.contains s then some (JValue.str s)
      else some (JValue.str "other")
  | _ => some (JValue.str "other")

/-- `if sub['billing_cycle'] not in valid_cycles: sub['billing_cycle'] =
'monthly'`. -/
def repairCycle (v : Option JValue) : Option JValue :=
  match v with
  | some (JValue.str s) =>
      if valid_cycles.contains s then some (JValue.str s)
      else some (JValue.str "monthly")
  | _ => some (JValue.str "monthly")

/-- `0 < q`, computed on the numerator so that it evaluates by kernel
reduction (the denominator of a `Rat` is positive). -/
def ratPos (q : ℚ) : Bool := 0 < q.num

/-- `0 ≤ q`, computed on the numerator. -/
def ratNonneg (q : ℚ) : Bool := 0 ≤ q.num

/-- `q ≤ 1`, computed as `q.num ≤ q.den`. -/
def ratLeOne (q : ℚ) : Bool := q.num ≤ (q.den : Int)

/-- `not isinstance(sub['amount'], (int, float)) or sub['amount'] <= 0`
(negated): the amount field holds a numeric, strictly positive value.
Python's `or` short-circuits, so a non-numeric amount never reaches the
comparison and no exception is raised. -/
def amountOK (v : Option JValue) : Bool :=
  match v with
  | some a => a.isNumeric && ratPos a.numVal
  | none => false

/-- `not isinstance(sub['confidence'], (int, float)) or not (0 <=
sub['confidence'] <= 1)` (negated): numeric and inside `[0, 1]`. -/
def confOK (v : Option JValue) : Bool :=
  match v with
  | some c => c.isNumeric && ratNonneg c.numVal && ratLeOne c.numVal
  | none => false

/-- `ClaudeSubscriptionDetector._validate_subscription`, as a pure function:
`none` when the Python code returns `False` (the candidate is dropped) and
`some` of the repaired candidate when it returns `True` (in Python the
repairs mutate `sub` in place; the mutated dict is what gets appended, which
is observationally the repaired candidate returned here).  The category and
billing-cycle repairs happen before the amount test, exactly as in the
source; since a rejected candidate is discarded, the output is unaffected by
that ordering. -/
def validate_subscription (c : Candidate) : Option Candidate :=
  if requiredPresent c then
    let c1 : Candidate :=
      { c with category := repairCategory c.category,
               billing_cycle := repairCycle c.billing_cycle }
    if amountOK c1.amount then
      if confOK c1.confidence then some c1
      else some { c1 with confidence := some (JValue.num (mkRat 4 5)) }
    else none
  else none

/-- The category value is present, a string, and one of the closed category
set — the case in which validation keeps it unchanged. -/
def knownCategory (v : Option JValue) : Bool :=
  match v with
  | some (JValue.str s) => valid_categories.contains s
  | _ => false

/-- The billing-cycle value is present, a string, and one of
monthly/yearly/weekly. -/
def knownCycle (v : Option JValue) : Bool :=
  match v with
  | some (JValue.str s) => valid_cycles.contains s
  | _ => false

/-- An element of the JSON array located in the detector response.  A
non-object element makes `'name' in sub` raise `TypeError`, which
`_validate_subscription` catches (`except Exception: return False`), so such
elements are dropped; they are carried as an opaque tag. -/
inductive Item where
  | obj (c : Candidate)
  | nonObj (tag : Nat)
deriving DecidableEq, Repr

/-- Validation of one array element: dict elements go through
`_validate_subscription`; non-dict elements raise inside it and are
rejected. -/
def validateItem : Item → Option Candidate
  | .obj c => validate_subscription c
  | .nonObj _ => none

/-- `ClaudeSubscriptionDetector._get_mock_subscriptions`: the fixed two-item
fallback list. -/
def get_mock_subscriptions : List Candidate :=
  [{ name := some (.str "Amazon Prime"), company := some (.str "Amazon"),
     amount := some (.num (mkRat 1499 100)),
     billing_cycle := some (.str "monthly"),
     category := some (.str "streaming"),
     confidence := some (.num (mkRat 95 100)) },
   { name := some (.str "Microsoft 365"), company := some (.str "Microsoft"),
     amount := some (.num (mkRat 699 100)),
     billing_cycle := some (.str "monthly"),
     category := some (.str "software"),
     confidence := some (.num (mkRat 88 100)) }]

/-- The outcome of `re.search(r'\[.*\]', content, re.DOTALL)` followed by
`json.loads` on the matched substring: either no array substring was found,
or the substring failed to decode, or it decoded to a list of elements.
(`re` and `json` are library collaborators; only this outcome is observable
to the validation logic.) -/
inductive ExtractResult where
  | noMatch
  | decodeError
  | decoded (items : List Item)
deriving DecidableEq, Repr

/-- `ClaudeSubscriptionDetector._parse_claude_response`: on a located,
decodable array, keep the candidates that validate; otherwise return the
fixed fallback list.  Total — no error escapes to the caller. -/
def parse_claude_response (r : ExtractResult) : List Candidate :=
  match r with
  | .decoded items => items.filterMap validateItem
  | .noMatch => get_mock_subscriptions
  | .decodeError => get_mock_subscriptions

/-- `ClaudeSubscriptionDetector.analyze_bank_statement`: with no configured
client (`CLAUDE_API_KEY` absent) return the fallback list; when the external
call raises (`call = none`) return the fallback list; otherwise parse the
response content.  The external call's observable outcome is its extraction
result. -/
def analyze_bank_statement (hasClient : Bool) (call : Option ExtractResult) :
    List Candidate :=
  if hasClient then
    match call with
    | some r => parse_claude_response r
    | none => get_mock_subscriptions
  else get_mock_subscriptions

/-! ## Record store (`app/models.py`, `app/database.py`) -/

/-- `app/models.py` `Subscription`.  Timestamps are integer seconds; the
`status`, `billing_cycle`, `category` and `currency` fields are strings, as
the aggregation code compares them with string literals (the Python enums
are `str` subclasses). -/
structure Subscription where
  id : String
  user_id : String
  name : String
  company : String
  amount : ℚ
  currency : String
  billing_cycle : String
  next_billing_date : Int
  category : String
  status : String
  auto_detected : Bool
  last_used : Option Int
  created_at : Int
  updated_at : Int
deriving DecidableEq, Repr

/-- `app/models.py` `BillNegotiation`. -/
structure BillNegotiation where
  id : String
  user_id : String
  subscription_id : Option String
  service_name : String
  current_amount : ℚ
  target_amount : Option ℚ
  status : String
  savings_potential : Option ℚ
  negotiation_notes : Option String
  created_at : Int
  completed_at : Option Int
deriving DecidableEq, Repr

/-- `app/models.py` `User` (fields not consulted by the verified operations
are kept for fidelity of the store shape). -/
structure User where
  id : String
  email : String
  name : String
  currency : String
  plan : String
  stripe_customer_id : Option String
  subscription_expires_at : Option Int
  total_monthly_spending : ℚ
  total_savings : ℚ
  ai_detections_used : Int
  ai_detections_limit : Int
  created_at : Int
deriving DecidableEq, Repr

/-- `app/models.py` `PriceAlert`. -/
structure PriceAlert where
  id : String
  user_id : String
  subscription_id : String
  old_price : ℚ
  new_price : ℚ
  change_percentage : ℚ
  alert_date : Int
  acknowledged : Bool
deriving DecidableEq, Repr

/-- `app/models.py` `SavingsReport`. -/
structure SavingsReport where
  user_id : String
  monthly_savings : ℚ
  yearly_savings : ℚ
  cancelled_subscriptions : Nat
  negotiated_bills : Nat
  total_subscriptions : Nat
  active_subscriptions : Nat
deriving DecidableEq, Repr

/-- Python dict lookup `d.get(k)` on an insertion-ordered dict, modelled as
an association list. -/
def lookupA {α : Type} (l : List (String × α)) (k : String) : Option α :=
  (l.find? (fun p => p.1 == k)).map (fun p => p.2)

/-- Python `d.values()` of an insertion-ordered dict. -/
def dictValues {α : Type} (l : List (String × α)) : List α :=
  l.map (fun p => p.2)

/-- `d[k] = v` for a key already present: the value is replaced in place
(insertion order is unchanged). -/
def setA {α : Type} (l : List (String × α)) (k : String) (v : α) :
    List (String × α) :=
  match l with
  | [] => []
  | p :: t => (if p.1 == k then (k, v) else p) :: setA t k v

/-- `app/database.py` `InMemoryDatabase`: four keyed maps. -/
structure Database where
  users : List (String × User)
  subscriptions : List (String × Subscription)
  bill_negotiations : List (String × BillNegotiation)
  price_alerts : List (String × PriceAlert)
deriving DecidableEq, Repr

/-- `InMemoryDatabase.get_user_subscriptions`: linear scan over the dict's
values filtering by owner. -/
def get_user_subscriptions (db : Database) (user_id : String) :
    List Subscription :=
  (dictValues db.subscriptions).filter (fun sub => sub.user_id == user_id)

/-- `InMemoryDatabase.get_user_negotiations`. -/
def get_user_negotiations (db : Database) (user_id : String) :
    List BillNegotiation :=
  (dictValues db.bill_negotiations).filter (fun neg => neg.user_id == user_id)

/-- The keys of the `updates` dict passed to
`InMemoryDatabase.update_subscription`, together with the value assigned to
each: one constructor per attribute of `Subscription` (for which
`hasattr(subscription, key)` is true) and `unknown` for any other key (for
which `hasattr` is false and the entry is skipped). -/
inductive FieldUpd where
  | id (v : String)
  | user_id (v : String)
  | name (v : String)
  | company (v : String)
  | amount (v : ℚ)
  | currency (v : String)
  | billing_cycle (v : String)
  | next_billing_date (v : Int)
  | category (v : String)
  | status (v : String)
  | auto_detected (v : Bool)
  | last_used (v : Option Int)
  | created_at (v : Int)
  | updated_at (v : Int)
  | unknown (key : String)
deriving DecidableEq, Repr

/-- The attribute names of `Subscription`, used to speak about which field
of the record an update entry targets. -/
inductive FieldKey where
  | id | user_id | name | company | amount | currency | billing_cycle
  | next_billing_date | category | status | auto_detected | last_used
  | created_at | updated_at
deriving DecidableEq, Repr

/-- The attribute an update entry targets; `none` for a key that is not an
attribute of the record. -/
def updTarget : FieldUpd → Option FieldKey
  | .id _ => some .id
  | .user_id _ => some .user_id
  | .name _ => some .name
  | .company _ => some .company
  | .amount _ => some .amount
  | .currency _ => some .currency
  | .billing_cycle _ => some .billing_cycle
  | .next_billing_date _ => some .next_billing_date
  | .category _ => some .category
  | .status _ => some .status
  | .auto_detected _ => some .auto_detected
  | .last_used _ => some .last_used
  | .created_at _ => some .created_at
  | .updated_at _ => some .updated_at
  | .unknown _ => none

/-- Two subscription records agree on the attribute named by `k`. -/
def fieldsAgree (s s' : Subscription) : FieldKey → Prop
  | .id => s.id = s'.id
  | .user_id => s.user_id = s'.user_id
  | .name => s.name = s'.name
  | .company => s.company = s'.company
  | .amount => s.amount = s'.amount
  | .currency => s.currency = s'.currency
  | .billing_cycle => s.billing_cycle = s'.billing_cycle
  | .next_billing_date => s.next_billing_date = s'.next_billing_date
  | .category => s.category = s'.category
  | .status => s.status = s'.status
  | .auto_detected => s.auto_detected = s'.auto_detected
  | .last_used => s.last_used = s'.last_used
  | .created_at => s.created_at = s'.created_at
  | .updated_at => s.updated_at = s'.updated_at

/-- One iteration of `for key, value in updates.items(): if
hasattr(subscription, key): setattr(subscription, key, value)`. -/
def applyUpd (s : Subscription) : FieldUpd → Subscription
  | .id v => { s with id := v }
  | .user_id v => { s with user_id := v }
  | .name v => { s with name := v }
  | .company v => { s with company := v }
  | .amount v => { s with amount := v }
  | .currency v => { s with currency := v }
  | .billing_cycle v => { s with billing_cycle := v }
  | .next_billing_date v => { s with next_billing_date := v }
  | .category v => { s with category := v }
  | .status v => { s with status := v }
  | .auto_detected v => { s with auto_detected := v }
  | .last_used v => { s with last_used := v }
  | .created_at v => { s with created_at := v }
  | .updated_at v => { s with updated_at := v }
  | .unknown _ => s

/-- The record produced by `update_subscription` on a present id: all update
entries applied in order, then `subscription.updated_at = datetime.utcnow()`. -/
def applyAll (s : Subscription) (updates : List FieldUpd) (now : Int) :
    Subscription :=
  { updates.foldl applyUpd s with updated_at := now }

/-- `InMemoryDatabase.update_subscription`: returns the updated record (or
`none` when the id is absent) together with the resulting store (Python
mutates the shared object; here the dict entry is replaced by the updated
record, which is observationally the same store). -/
def update_subscription (db : Database) (subscription_id : String)
    (updates : List FieldUpd) (now : Int) : Option Subscription × Database :=
  match lookupA db.subscriptions subscription_id with
  | some s =>
      let s2 := applyAll s updates now
      (some s2,
        { db with subscriptions := setA db.subscriptions subscription_id s2 })
  | none => (none, db)

/-- `InMemoryDatabase.get_user_savings_report`: sums and counts over the
user's subscriptions and negotiations.  `neg.savings_potential or 0` maps
`None` to 0 (and 0.0 to 0, the same value), i.e. `Option.getD 0`. -/
def get_user_savings_report (db : Database) (user_id : String) :
    SavingsReport :=
  let user_subscriptions := get_user_subscriptions db user_id
  let user_negotiations := get_user_negotiations db user_id
  let active_subs := user_subscriptions.filter (fun sub => sub.status == "active")
  let cancelled_subs := user_subscriptions.filter (fun sub => sub.status == "cancelled")
  let completed_negotiations :=
    user_negotiations.filter (fun neg => neg.status == "completed")
  let monthly_savings :=
    (completed_negotiations.map (fun neg => neg.savings_potential.getD 0)).sum
      + (cancelled_subs.map (fun sub => sub.amount)).sum
  { user_id := user_id
    monthly_savings := monthly_savings
    yearly_savings := monthly_savings * 12
    cancelled_subscriptions := cancelled_subs.length
    negotiated_bills := completed_negotiations.length
    total_subscriptions := user_subscriptions.length
    active_subscriptions := active_subs.length }

/-! ## Aggregation endpoints (`app/main.py`) -/

/-- Seconds per day: `timedelta(days = d)` is `d * 86400` seconds. -/
def secondsPerDay : Int := 86400

/-- The filtering loop of the `/api/users/{user_id}/unused-subscriptions`
handler (`get_unused_subscriptions` in `app/main.py`): `cutoff_date =
datetime.utcnow() - timedelta(days=days_unused)` and keep subscriptions with
`sub.status == "active" and sub.last_used and sub.last_used < cutoff_date`
(a missing `last_used` is `None`, which is falsy; a `datetime` is always
truthy). -/
def unused_filter (subs : List Subscription) (now : Int)
    (days_unused : Int := 30) : List Subscription :=
  let cutoff_date := now - days_unused * secondsPerDay
  subs.filter (fun sub =>
    sub.status == "active" &&
      (match sub.last_used with
       | some t => decide (t < cutoff_date)
       | none => false))

/-- The whole unused-subscriptions operation for a user: the user's
subscriptions from the store, filtered by the staleness rule. -/
def get_unused_subscriptions_op (db : Database) (user_id : String)
    (now : Int) (days_unused : Int := 30) : List Subscription :=
  unused_filter (get_user_subscriptions db user_id) now days_unused

/-- The value returned by the `/api/users/{user_id}/subscription-insights`
handler. -/
structure Insights where
  total_monthly_cost : ℚ
  total_yearly_cost : ℚ
  annual_projection : ℚ
  category_breakdown : List (String × Nat × ℚ)
  unused_subscriptions_count : Nat
  optimization_potential : ℚ
  active_subscriptions : Nat
  total_subscriptions : Nat
deriving DecidableEq, Repr

/-- One step of the `category_breakdown` accumulation: increment the entry
for `cat` if present, otherwise append a fresh `{"count": 1, "total": amt}`
entry (Python dicts append new keys in insertion order). -/
def addToBreakdown (acc : List (String × Nat × ℚ)) (cat : String) (amt : ℚ) :
    List (String × Nat × ℚ) :=
  if acc.any (fun e => e.1 == cat) then
    acc.map (fun e => if e.1 == cat then (e.1, e.2.1 + 1, e.2.2 + amt) else e)
  else acc ++ [(cat, 1, amt)]

/-- `get_subscription_insights` from `app/main.py`, over the user's
subscription list.  Note two deliberate features of the source, kept
verbatim: the unused count tests `(datetime.utcnow() - sub.last_used).days >
30` — floor division of the elapsed seconds by 86400 (Python `timedelta`
normalisation) — and does **not** test `sub.status`. -/
def get_subscription_insights (subs : List Subscription) (now : Int) :
    Insights :=
  let total_monthly :=
    ((subs.filter (fun sub =>
        sub.status == "active" && sub.billing_cycle == "monthly")).map
      (fun sub => sub.amount)).sum
  let total_yearly :=
    ((subs.filter (fun sub =>
        sub.status == "active" && sub.billing_cycle == "yearly")).map
      (fun sub => sub.amount)).sum
  let category_breakdown :=
    subs.foldl
      (fun acc sub =>
        if sub.status == "active" then addToBreakdown acc sub.category sub.amount
        else acc) []
  let unused_count :=
    (subs.filter (fun sub =>
      match sub.last_used with
      | some t => decide (30 < Int.fdiv (now - t) secondsPerDay)
      | none => false)).length
  { total_monthly_cost := total_monthly
    total_yearly_cost := total_yearly
    annual_projection := total_monthly * 12 + total_yearly
    category_breakdown := category_breakdown
    unused_subscriptions_count := unused_count
    optimization_potential := (unused_count : ℚ) * 15
    active_subscriptions :=
      (subs.filter (fun sub => sub.status == "active")).length
    total_subscriptions := subs.length }

/-! ## Payment adapter (`app/stripe_service.py`)

The only place in the verified scope where Python float *arithmetic* is
observable is `int(amount * 100)`, so here floats are modelled exactly:
every literal and every product is rounded to the nearest IEEE-754
binary64 value (round-to-nearest, ties-to-even), represented as a rational.
The model below is valid for positive values in the normal range with
magnitude below `2^52`, which covers every value occurring in the price
table and its products. -/

/-- Floor of the binary logarithm of a natural number, by structural
recursion on a fuel bound (64 suffices for every value in range). -/
def floorLog2Aux : Nat → Nat → Nat
  | 0, _ => 0
  | fuel + 1, n => if n < 2 then 0 else floorLog2Aux fuel (n / 2) + 1

/-- Round the fraction `n / b` (with `b > 0`) to the nearest integer, ties
to even, entirely in integer arithmetic: `f` is the floor and `r2` twice the
remainder, compared against the denominator. -/
def roundHalfEvenFrac (n b : Int) : Int :=
  let f := Int.fdiv n b
  let r2 := 2 * (n - f * b)
  if r2 < b then f
  else if b < r2 then f + 1
  else if f % 2 = 0 then f else f + 1

/-- The nearest IEEE-754 binary64 value to a rational `1 ≤ q < 2^52`
(round-to-nearest, ties-to-even), as an exact rational: the significand is
`q` scaled into `[2^52, 2^53)` and rounded half-to-even.  All arithmetic is
on the numerator and denominator so that the function evaluates by kernel
reduction.  (Non-positive inputs, which never occur here, map to 0.) -/
def roundDouble (q : ℚ) : ℚ :=
  if q.num ≤ 0 then 0
  else
    let e := floorLog2Aux 64 (Int.toNat (Int.fdiv q.num (q.den : Int)))
    let s : Nat := 2 ^ (52 - e)
    mkRat (roundHalfEvenFrac (q.num * (s : Int)) (q.den : Int)) s

/-- A Python float literal: the decimal value rounded to binary64. -/
def pyFloat (q : ℚ) : ℚ := roundDouble q

/-- The Python float product `x * n` of a float `x` and the int `n`: the
exact rational product (formed on the numerator, avoiding the irreducible
`Rat.mul`) rounded back to binary64. -/
def floatMulNat (q : ℚ) (n : Nat) : ℚ := roundDouble (mkRat (q.num * n) q.den)

/-- Python `int(x)` on a float: truncation toward zero. -/
def pyInt (q : ℚ) : Int := Int.tdiv q.num (q.den : Int)

/-- `StripeService.plan_prices`: plan × currency → price (a Python float
literal, hence a binary64 value; `mkRat a b` is the exact decimal value
`a / b`).  Only the premium plan has entries. -/
def plan_prices (plan : String) (currency : String) : Option ℚ :=
  if plan = "premium" then
    match currency with
    | "USD" => some (pyFloat (mkRat 999 100))
    | "EUR" => some (pyFloat (mkRat 849 100))
    | "GBP" => some (pyFloat (mkRat 799 100))
    | "INR" => some (pyFloat (mkRat 799 1))
    | "AUD" => some (pyFloat (mkRat 1499 100))
    | "CAD" => some (pyFloat (mkRat 1299 100))
    | "JPY" => some (pyFloat (mkRat 1499 1))
    | _ => none
  else none

/-- Python `str.lower()` on the ASCII currency codes, as a character map
(spelled out so that it evaluates by kernel reduction). -/
def strLower (s : String) : String := String.mk (s.data.map Char.toLower)

/-- The observable result of `StripeService.create_payment_intent`:
the integer amount and lower-cased currency sent to the processor, the
reconciliation metadata, and the echoed amount/currency of the returned
record. -/
structure PaymentIntentResult where
  stripe_amount : Int
  stripe_currency : String
  metadata_user_id : String
  metadata_plan : String
  amount : ℚ
  currency : String
deriving DecidableEq, Repr

deriving instance DecidableEq for Except

/-- `StripeService.create_payment_intent`.  Disabled adapter → the 503
service-unavailable error; a key missing from the price table raises
`KeyError`, caught by the handler and surfaced as the 500 internal error.
For every currency except `"JPY"` the processor is sent
`int(amount * 100)` where `amount * 100` is a binary64 product; for
`"JPY"` it is sent `int(amount)`. -/
def create_payment_intent (enabled : Bool) (user_id : String)
    (plan : String) (currency : String) :
    Except String PaymentIntentResult :=
  if enabled then
    match plan_prices plan currency with
    | some amount =>
        let stripe_amount : Int :=
          if currency ≠ "JPY" then pyInt (floatMulNat amount 100)
          else pyInt amount
        .ok { stripe_amount := stripe_amount
              stripe_currency := strLower currency
              metadata_user_id := user_id
              metadata_plan := plan
              amount := amount
              currency := currency }
    | none => .error "Failed to create payment intent"
  else .error "Payment processing is currently unavailable"

/-! ## Concrete sample values used by witnesses and counterexamples -/

/-- A fixed "now" timestamp (seconds) for concrete scenarios. -/
def T0 : Int := 1700000000

/-- A candidate with every required field present, a positive amount, an
unknown category and billing cycle, and an out-of-range confidence. -/
def wCand : Candidate :=
  { name := some (.str "Some Service"), company := some (.str "Some Co"),
    amount := some (.num (mkRat 5 1)), billing_cycle := some (.str "daily"),
    category := some (.str "food"), confidence := some (.num (mkRat 2 1)) }

/-- The repaired form of `wCand`. -/
def wCandOut : Candidate :=
  { name := some (.str "Some Service"), company := some (.str "Some Co"),
    amount := some (.num (mkRat 5 1)), billing_cycle := some (.str "monthly"),
    category := some (.str "other"), confidence := some (.num (mkRat 4 5)) }

/-- An active subscription last used 2 days before `T0`. -/
def subFresh : Subscription :=
  { id := "sub-fresh", user_id := "user-1", name := "Netflix Premium",
    company := "Netflix", amount := mkRat 1599 100, currency := "USD",
    billing_cycle := "monthly", next_billing_date := T0 + 15 * 86400,
    category := "streaming", status := "active", auto_detected := true,
    last_used := some (T0 - 2 * 86400), created_at := T0 - 100 * 86400,
    updated_at := T0 - 100 * 86400 }

/-- An active subscription last used 45 days before `T0`. -/
def subStale : Subscription :=
  { id := "sub-stale", user_id := "user-1", name := "Adobe Creative Cloud",
    company := "Adobe", amount := mkRat 5299 100, currency := "USD",
    billing_cycle := "monthly", next_billing_date := T0 + 22 * 86400,
    category := "software", status := "active", auto_detected := true,
    last_used := some (T0 - 45 * 86400), created_at := T0 - 200 * 86400,
    updated_at := T0 - 200 * 86400 }

/-- A cancelled subscription last used 45 days before `T0`: stale but not
active. -/
def subCancelledStale : Subscription :=
  { id := "sub-cds", user_id := "user-1", name := "Gym Membership",
    company := "FitLife Gym", amount := mkRat 2999 100, currency := "USD",
    billing_cycle := "monthly", next_billing_date := T0 + 5 * 86400,
    category := "fitness", status := "cancelled", auto_detected := true,
    last_used := some (T0 - 45 * 86400), created_at := T0 - 300 * 86400,
    updated_at := T0 - 300 * 86400 }

/-- A weekly-cycle active subscription, for the insights gap scenario. -/
def subWeekly : Subscription :=
  { id := "sub-week", user_id := "user-1", name := "Cleaning Service",
    company := "CleanCo", amount := mkRat 20 1, currency := "USD",
    billing_cycle := "weekly", next_billing_date := T0 + 3 * 86400,
    category := "other", status := "active", auto_detected := false,
    last_used := some (T0 - 86400), created_at := T0 - 50 * 86400,
    updated_at := T0 - 50 * 86400 }

/-- A store holding two subscriptions of `user-1` and no negotiations. -/
def wDB : Database :=
  { users := [("user-1",
      { id := "user-1", email := "demo@example.com", name := "Demo User",
        currency := "USD", plan := "free", stripe_customer_id := none,
        subscription_expires_at := none, total_monthly_spending := mkRat 0 1,
        total_savings := mkRat 0 1, ai_detections_used := 0,
        ai_detections_limit := 2, created_at := T0 - 400 * 86400 })]
    subscriptions := [("sub-fresh", subFresh), ("sub-stale", subStale)]
    bill_negotiations := []
    price_alerts := [] }

/-- An update map touching a known attribute (`amount`), an unknown key, and
the `status` attribute. -/
def wUpds : List FieldUpd :=
  [FieldUpd.amount (mkRat 1299 100), FieldUpd.unknown "not_an_attribute",
   FieldUpd.status "paused"]

/-! ## Helper lemmas -/

theorem repairCategory_of_known {v : Option JValue}
    (h : knownCategory v = true) : repairCategory v = v := by
  unfold knownCategory at h
  unfold repairCategory
  match v with
  | some (JValue.str s) => simp_all
  | some .null | some (.bool _) | some (.num _) | some (.arr _)
  | some (.obj _) | none => simp_all

theorem repairCategory_of_unknown {v : Option JValue}
    (h : knownCategory v = false) :
    repairCategory v = some (JValue.str "other") := by
  unfold knownCategory at h
  unfold repairCategory
  match v with
  | some (JValue.str s) => simp_all
  | some .null | some (.bool _) | some (.num _) | some (.arr _)
  | some (.obj _) | none => simp_all

theorem repairCycle_of_known {v : Option JValue}
    (h : knownCycle v = true) : repairCycle v = v := by
  unfold knownCycle at h
  unfold repairCycle
  match v with
  | some (JValue.str s) => simp_all
  | some .null | some (.bool _) | some (.num _) | some (.arr _)
  | some (.obj _) | none => simp_all

theorem repairCycle_of_unknown {v : Option JValue}
    (h : knownCycle v = false) :
    repairCycle v = some (JValue.str "monthly") := by
  unfold knownCycle at h
  unfold repairCycle
  match v with
  | some (JValue.str s) => simp_all
  | some .null | some (.bool _) | some (.num _) | some (.arr _)
  | some (.obj _) | none => simp_all

theorem repairCategory_isSome (v : Option JValue) :
    (repairCategory v).isSome = true := by
  unfold repairCategory
  match v with
  | some (JValue.str s) => by_cases h : s ∈ valid_categories <;> simp [h]
  | some .null | some (.bool _) | some (.num _) | some (.arr _)
  | some (.obj _) | none => simp

theorem repairCycle_isSome (v : Option JValue) :
    (repairCycle v).isSome = true := by
  unfold repairCycle
  match v with
  | some (JValue.str s) => by_cases h : s ∈ valid_cycles <;> simp [h]
  | some .null | some (.bool _) | some (.num _) | some (.arr _)
  | some (.obj _) | none => simp

theorem knownCategory_repair (v : Option JValue) :
    knownCategory (repairCategory v) = true := by
  unfold repairCategory knownCategory
  match v with
  | some (JValue.str s) =>
      by_cases h : s ∈ valid_categories
      · simp [h]
      · simp [h]; decide
  | some .null | some (.bool _) | some (.num _) | some (.arr _)
  | some (.obj _) | none => simp; decide

theorem knownCycle_repair (v : Option JValue) :
    knownCycle (repairCycle v) = true := by
  unfold repairCycle knownCycle
  match v with
  | some (JValue.str s) =>
      by_cases h : s ∈ valid_cycles
      · simp [h]
      · simp [h]; decide
  | some .null | some (.bool _) | some (.num _) | some (.arr _)
  | some (.obj _) | none => simp; decide

/-- C1: detector validation drops a candidate exactly when a required field
is missing or its amount is non-numeric or not strictly positive; a kept
candidate keeps name/company/amount, keeps a known category/billing cycle
and a confidence inside [0,1], and has an unknown category replaced by
"other", an unknown billing cycle by "monthly", and a non-numeric or
out-of-range confidence by 0.8. -/
theorem validation_drop_iff_and_repair (c : Candidate) :
    (validate_subscription c = none ↔
      requiredPresent c = false ∨ amountOK c.amount = false) ∧
    (∀ c', validate_subscription c = some c' →
      c'.name = c.name ∧ c'.company = c.company ∧ c'.amount = c.amount ∧
      (knownCategory c.category = true → c'.category = c.category) ∧
      (knownCategory c.category = false →
        c'.category = some (JValue.str "other")) ∧
      (knownCycle c.billing_cycle = true →
        c'.billing_cycle = c.billing_cycle) ∧
      (knownCycle c.billing_cycle = false →
        c'.billing_cycle = some (JValue.str "monthly")) ∧
      (confOK c.confidence = true → c'.confidence = c.confidence) ∧
      (confOK c.confidence = false →
        c'.confidence = some (JValue.num (mkRat 4 5)))) := by
  constructor
  · by_cases hreq : requiredPresent c
    · by_cases hamt : amountOK c.amount
      · simp [validate_subscription, hreq, hamt]
        split <;> simp
      · simp [validate_subscription, hreq, hamt]
    · simp [validate_subscription, hreq]
  · intro c' h
    by_cases hreq : requiredPresent c
    case neg => simp [validate_subscription, hreq] at h
    by_cases hamt : amountOK c.amount
    case neg => simp [validate_subscription, hreq, hamt] at h
    by_cases hconf : confOK c.confidence
    · simp [validate_subscription, hreq, hamt, hconf] at h
      subst h
      refine ⟨rfl, rfl, rfl, ?_, ?_, ?_, ?_, fun _ => rfl, ?_⟩
      · intro hk; simp [repairCategory_of_known hk]
      · intro hk; simp [repairCategory_of_unknown hk]
      · intro hk; simp [repairCycle_of_known hk]
      · intro hk; simp [repairCycle_of_unknown hk]
      · intro hbad; rw [hconf] at hbad; cases hbad
    · simp [validate_subscription, hreq, hamt, hconf] at h
      subst h
      refine ⟨rfl, rfl, rfl, ?_, ?_, ?_, ?_, ?_, fun _ => rfl⟩
      · intro hk; simp [repairCategory_of_known hk]
      · intro hk; simp [repairCategory_of_unknown hk]
      · intro hk; simp [repairCycle_of_known hk]
      · intro hk; simp [repairCycle_of_unknown hk]
      · intro hgood; exact absurd hgood hconf


/-- Witness for C1 at a concrete candidate with unknown category and cycle
and out-of-range confidence. -/
theorem validation_drop_iff_and_repair_witness :
    validate_subscription wCand = some wCandOut ∧
    wCandOut.category = some (JValue.str "other") ∧
    wCandOut.billing_cycle = some (JValue.str "monthly") ∧
    wCandOut.confidence = some (JValue.num (mkRat 4 5)) ∧
    wCandOut.amount = wCand.amount := by
  have h := (validation_drop_iff_and_repair wCand).2 wCandOut (by decide)
  exact ⟨by decide, h.2.2.2.2.1 (by decide), h.2.2.2.2.2.2.1 (by decide),
    h.2.2.2.2.2.2.2.2 (by decide), h.2.2.1⟩

theorem validate_fix {c c' : Candidate}
    (h : validate_subscription c = some c') :
    validate_subscription c' = some c' := by
  by_cases hreq : requiredPresent c
  case neg => simp [validate_subscription, hreq] at h
  by_cases hamt : amountOK c.amount
  case neg => simp [validate_subscription, hreq, hamt] at h
  have hsplit := hreq
  simp only [requiredPresent, Bool.and_eq_true] at hsplit
  obtain ⟨⟨⟨⟨⟨hname, hcomp⟩, hamt2⟩, hcyc2⟩, hcat2⟩, hconf2⟩ := hsplit
  have hkc : knownCategory (repairCategory c.category) = true :=
    knownCategory_repair _
  have hky : knownCycle (repairCycle c.billing_cycle) = true :=
    knownCycle_repair _
  by_cases hconf : confOK c.confidence
  · simp [validate_subscription, hreq, hamt, hconf] at h
    subst h
    simp [validate_subscription, requiredPresent, hname, hcomp, hamt2, hconf2,
      repairCategory_isSome, repairCycle_isSome,
      repairCategory_of_known hkc, repairCycle_of_known hky, hamt, hconf]
  · simp [validate_subscription, hreq, hamt, hconf] at h
    subst h
    simp [validate_subscription, requiredPresent, hname, hcomp, hamt2,
      repairCategory_isSome, repairCycle_isSome,
      repairCategory_of_known hkc, repairCycle_of_known hky, hamt]

/-- C8: the parse-and-validate step is a pure function of the extraction
outcome (the embedding is state-free, so it cannot mutate its input), and it
is idempotent: re-validating its own output — whatever the original
response was — returns that output unchanged. -/
theorem parse_and_validate_idempotent (r : ExtractResult) :
    parse_claude_response
        (ExtractResult.decoded ((parse_claude_response r).map Item.obj)) =
      parse_claude_response r := by
  have key : ∀ l : List Candidate,
      (∀ c ∈ l, validate_subscription c = some c) →
      (l.map Item.obj).filterMap validateItem = l := by
    intro l hl
    induction l with
    | nil => simp
    | cons a t ih =>
        simp only [List.map_cons, List.filterMap_cons, validateItem,
          hl a (by simp)]
        simp [ih (fun c hc => hl c (by simp [hc]))]
  cases r with
  | decoded items =>
      simp only [parse_claude_response]
      apply key
      intro c hc
      obtain ⟨item, _, hv⟩ := List.mem_filterMap.mp hc
      cases item with
      | obj c0 => exact validate_fix hv
      | nonObj t => simp [validateItem] at hv
  | noMatch =>
      simp only [parse_claude_response]
      apply key
      intro c hc
      simp [get_mock_subscriptions] at hc
      rcases hc with h | h <;> subst h <;> decide
  | decodeError =>
      simp only [parse_claude_response]
      apply key
      intro c hc
      simp [get_mock_subscriptions] at hc
      rcases hc with h | h <;> subst h <;> decide


/-- C3: with no configured backend, a failed external call, no JSON array
substring, or a JSON decode failure, the detector returns exactly the fixed
two-item fallback list (Amazon Prime 14.99 monthly at confidence 0.95,
Microsoft 365 6.99 monthly at confidence 0.88); all four paths are total,
so no error reaches the caller. -/
theorem detector_fallback_fixed_list :
    (∀ call, analyze_bank_statement false call = get_mock_subscriptions) ∧
    analyze_bank_statement true none = get_mock_subscriptions ∧
    analyze_bank_statement true (some ExtractResult.noMatch) =
      get_mock_subscriptions ∧
    analyze_bank_statement true (some ExtractResult.decodeError) =
      get_mock_subscriptions ∧
    get_mock_subscriptions =
      [{ name := some (.str "Amazon Prime"), company := some (.str "Amazon"),
         amount := some (.num (mkRat 1499 100)),
         billing_cycle := some (.str "monthly"),
         category := some (.str "streaming"),
         confidence := some (.num (mkRat 95 100)) },
       { name := some (.str "Microsoft 365"),
         company := some (.str "Microsoft"),
         amount := some (.num (mkRat 699 100)),
         billing_cycle := some (.str "monthly"),
         category := some (.str "software"),
         confidence := some (.num (mkRat 88 100)) }] :=
  ⟨fun _ => rfl, rfl, rfl, rfl, rfl⟩

/-- C9: for the premium plan and each supported currency, the enabled
payment adapter sends the processor the integer table price × 100 in minor
units — exactly, despite the binary64 rounding of `amount * 100` — except
for JPY, which is sent the whole-unit table price; the returned record
echoes the table price and the requested currency. -/
theorem payment_intent_minor_units (user_id : String) :
    (create_payment_intent true user_id "premium" "USD" = Except.ok
        { stripe_amount := 999, stripe_currency := "usd",
          metadata_user_id := user_id, metadata_plan := "premium",
          amount := pyFloat (mkRat 999 100), currency := "USD" } ∧
      ((999 : Int) : ℚ) = mkRat 999 100 * 100) ∧
    (create_payment_intent true user_id "premium" "EUR" = Except.ok
        { stripe_amount := 849, stripe_currency := "eur",
          metadata_user_id := user_id, metadata_plan := "premium",
          amount := pyFloat (mkRat 849 100), currency := "EUR" } ∧
      ((849 : Int) : ℚ) = mkRat 849 100 * 100) ∧
    (create_payment_intent true user_id "premium" "GBP" = Except.ok
        { stripe_amount := 799, stripe_currency := "gbp",
          metadata_user_id := user_id, metadata_plan := "premium",
          amount := pyFloat (mkRat 799 100), currency := "GBP" } ∧
      ((799 : Int) : ℚ) = mkRat 799 100 * 100) ∧
    (create_payment_intent true user_id "premium" "INR" = Except.ok
        { stripe_amount := 79900, stripe_currency := "inr",
          metadata_user_id := user_id, metadata_plan := "premium",
          amount := pyFloat (mkRat 799 1), currency := "INR" } ∧
      ((79900 : Int) : ℚ) = mkRat 799 1 * 100) ∧
    (create_payment_intent true user_id "premium" "AUD" = Except.ok
        { stripe_amount := 1499, stripe_currency := "aud",
          metadata_user_id := user_id, metadata_plan := "premium",
          amount := pyFloat (mkRat 1499 100), currency := "AUD" } ∧
      ((1499 : Int) : ℚ) = mkRat 1499 100 * 100) ∧
    (create_payment_intent true user_id "premium" "CAD" = Except.ok
        { stripe_amount := 1299, stripe_currency := "cad",
          metadata_user_id := user_id, metadata_plan := "premium",
          amount := pyFloat (mkRat 1299 100), currency := "CAD" } ∧
      ((1299 : Int) : ℚ) = mkRat 1299 100 * 100) ∧
    (create_payment_intent true user_id "premium" "JPY" = Except.ok
        { stripe_amount := 1499, stripe_currency := "jpy",
          metadata_user_id := user_id, metadata_plan := "premium",
          amount := pyFloat (mkRat 1499 1), currency := "JPY" } ∧
      ((1499 : Int) : ℚ) = mkRat 1499 1) := by
  refine ⟨⟨rfl, ?_⟩, ⟨rfl, ?_⟩, ⟨rfl, ?_⟩, ⟨rfl, ?_⟩, ⟨rfl, ?_⟩, ⟨rfl, ?_⟩,
    ⟨rfl, ?_⟩⟩ <;> (simp [Rat.mkRat_eq_divInt, Rat.divInt_eq_div]; try norm_num)

theorem fieldsAgree_trans {a b c : Subscription} {k : FieldKey}
    (h1 : fieldsAgree a b k) (h2 : fieldsAgree b c k) : fieldsAgree a c k := by
  cases k <;> exact h1.trans h2

theorem applyUpd_agree (s : Subscription) (u : FieldUpd) (k : FieldKey)
    (h : updTarget u ≠ some k) : fieldsAgree s (applyUpd s u) k := by
  cases u <;> cases k <;> first | rfl | exact absurd rfl h

theorem foldl_applyUpd_agree (updates : List FieldUpd) (s : Subscription)
    (k : FieldKey) (h : ∀ u ∈ updates, updTarget u ≠ some k) :
    fieldsAgree s (updates.foldl applyUpd s) k := by
  induction updates generalizing s with
  | nil => cases k <;> rfl
  | cons u t ih =>
      simp only [List.foldl_cons]
      exact fieldsAgree_trans
        (applyUpd_agree s u k (h u (by simp)))
        (ih (applyUpd s u) (fun u2 hu2 => h u2 (by simp [hu2])))

theorem lookupA_setA_ne {α : Type} (l : List (String × α)) (k k2 : String)
    (v : α) (h : k2 ≠ k) : lookupA (setA l k v) k2 = lookupA l k2 := by
  induction l with
  | nil => rfl
  | cons p t ih =>
      by_cases hp : (p.1 == k) = true
      · have hpk : p.1 = k := by simpa using hp
        have h1 : (k == k2) = false := by
          simp [beq_eq_false_iff_ne]; exact Ne.symm h
        have h2 : (p.1 == k2) = false := by
          simp [hpk, beq_eq_false_iff_ne]; exact Ne.symm h
        simp [setA, lookupA, List.find?_cons, hp, h1, h2] at ih ⊢
        exact ih
      · by_cases hp2 : (p.1 == k2) = true
        · simp [setA, lookupA, List.find?_cons, hp, hp2]
        · simp [setA, lookupA, List.find?_cons, hp, hp2] at ih ⊢
          exact ih


/-- C7: partial update of a subscription — an absent id returns the
not-found signal and leaves the store untouched; a present id applies
exactly the update entries that name existing attributes (unknown keys are
skipped by `applyAll`), refreshes `updated_at` to now, leaves every
attribute not named by any entry unchanged, and leaves every other record
in the store unchanged. -/
theorem update_subscription_spec (db : Database) (sid : String)
    (updates : List FieldUpd) (now : Int) :
    (lookupA db.subscriptions sid = none →
      update_subscription db sid updates now = (none, db)) ∧
    (∀ s, lookupA db.subscriptions sid = some s →
      update_subscription db sid updates now =
        (some (applyAll s updates now),
         { db with subscriptions :=
             (setA db.subscriptions sid (applyAll s updates now)) }) ∧
      (applyAll s updates now).updated_at = now ∧
      (∀ k, k ≠ FieldKey.updated_at →
        (∀ u ∈ updates, updTarget u ≠ some k) →
        fieldsAgree s (applyAll s updates now) k) ∧
      (∀ k2, k2 ≠ sid →
        lookupA (setA db.subscriptions sid (applyAll s updates now)) k2 =
          lookupA db.subscriptions k2)) := by
  constructor
  · intro h
    simp [update_subscription, h]
  · intro s h
    refine ⟨by simp [update_subscription, h], rfl, ?_, ?_⟩
    · intro k hk hupd
      refine fieldsAgree_trans (foldl_applyUpd_agree updates s k hupd) ?_
      cases k <;> first | rfl | exact absurd rfl hk
    · intro k2 hk2
      exact lookupA_setA_ne _ _ _ _ hk2

/-- Witness for C7: a missing id and a present id in a concrete two-record
store, with an update list containing a known attribute, an unknown key and
a status change. -/
theorem update_subscription_spec_witness :
    update_subscription wDB "missing-id" wUpds T0 = (none, wDB) ∧
    update_subscription wDB "sub-fresh" wUpds T0 =
      (some (applyAll subFresh wUpds T0),
       { wDB with subscriptions :=
           (setA wDB.subscriptions "sub-fresh" (applyAll subFresh wUpds T0)) }) ∧
    (applyAll subFresh wUpds T0).updated_at = T0 ∧
    fieldsAgree subFresh (applyAll subFresh wUpds T0) FieldKey.name ∧
    lookupA (setA wDB.subscriptions "sub-fresh" (applyAll subFresh wUpds T0))
        "sub-stale" =
      lookupA wDB.subscriptions "sub-stale" := by
  have h1 := (update_subscription_spec wDB "missing-id" wUpds T0).1 (by decide)
  have h2 := (update_subscription_spec wDB "sub-fresh" wUpds T0).2 subFresh
    (by decide)
  exact ⟨h1, h2.1, h2.2.1, h2.2.2.1 FieldKey.name (by decide) (by decide),
    h2.2.2.2 "sub-stale" (by decide)⟩

/-- C2: the savings report's monthly savings equal the sum of
savings-potential over the user's completed negotiations plus the sum of
amounts over the user's cancelled subscriptions; yearly savings are monthly
× 12; and the four counts are the user's cancelled, completed-negotiation,
total, and active record counts. -/
theorem savings_report_spec (db : Database) (uid : String) :
    (get_user_savings_report db uid).monthly_savings =
      (((dictValues db.bill_negotiations).filter
          (fun neg => neg.status == "completed" && neg.user_id == uid)).map
        (fun neg => neg.savings_potential.getD 0)).sum
      + (((dictValues db.subscriptions).filter
          (fun sub => sub.status == "cancelled" && sub.user_id == uid)).map
        (fun sub => sub.amount)).sum ∧
    (get_user_savings_report db uid).yearly_savings =
      (get_user_savings_report db uid).monthly_savings * 12 ∧
    (get_user_savings_report db uid).cancelled_subscriptions =
      ((dictValues db.subscriptions).filter
        (fun sub => sub.status == "cancelled" && sub.user_id == uid)).length ∧
    (get_user_savings_report db uid).negotiated_bills =
      ((dictValues db.bill_negotiations).filter
        (fun neg => neg.status == "completed" && neg.user_id == uid)).length ∧
    (get_user_savings_report db uid).total_subscriptions =
      ((dictValues db.subscriptions).filter
        (fun sub => sub.user_id == uid)).length ∧
    (get_user_savings_report db uid).active_subscriptions =
      ((dictValues db.subscriptions).filter
        (fun sub => sub.status == "active" && sub.user_id == uid)).length := by
  refine ⟨?_, rfl, ?_, ?_, rfl, ?_⟩ <;>
    simp [get_user_savings_report, get_user_subscriptions,
      get_user_negotiations, List.filter_filter]

/-- C10: for a user id owning no subscriptions and no negotiations —
including ids absent from the user map, which the store never consults —
the savings report is all zeros rather than a not-found signal (the
operation's type has no failure case). -/
theorem savings_report_no_records (db : Database) (uid : String)
    (h1 : get_user_subscriptions db uid = [])
    (h2 : get_user_negotiations db uid = []) :
    get_user_savings_report db uid =
      { user_id := uid, monthly_savings := 0, yearly_savings := 0,
        cancelled_subscriptions := 0, negotiated_bills := 0,
        total_subscriptions := 0, active_subscriptions := 0 } := by
  simp [get_user_savings_report, h1, h2]

/-- Witness for C10 at a user id that does not exist in the store. -/
theorem savings_report_no_records_witness :
    get_user_savings_report wDB "ghost-user" =
      { user_id := "ghost-user", monthly_savings := 0, yearly_savings := 0,
        cancelled_subscriptions := 0, negotiated_bills := 0,
        total_subscriptions := 0, active_subscriptions := 0 } :=
  savings_report_no_records wDB "ghost-user" (by decide) (by decide)


/-- C4: the unused-subscriptions operation returns exactly the user's
subscriptions that are active and whose `last_used` is present and strictly
older than now minus the threshold (default 30 days); a record with no
`last_used` is never returned. -/
theorem unused_subscriptions_spec (db : Database) (uid : String)
    (now days_unused : Int) :
    ∀ s, s ∈ get_unused_subscriptions_op db uid now days_unused ↔
      (s ∈ dictValues db.subscriptions ∧ s.user_id = uid ∧
       s.status = "active" ∧
       ∃ t, s.last_used = some t ∧ t < now - days_unused * secondsPerDay) := by
  intro s
  simp only [get_unused_subscriptions_op, unused_filter,
    get_user_subscriptions, List.mem_filter, Bool.and_eq_true, beq_iff_eq]
  cases hl : s.last_used with
  | none => simp [hl]
  | some t =>
      simp [hl]
      tauto

/-- C5: subscription insights sum the amounts of the user's active
monthly-cycle and active yearly-cycle subscriptions separately, project
annual cost as monthly × 12 + yearly, and a weekly-cycle active
subscription contributes to neither period total nor to the projection. -/
theorem insights_totals_spec (db : Database) (uid : String) (now : Int) :
    (get_subscription_insights (get_user_subscriptions db uid)
        now).total_monthly_cost =
      (((get_user_subscriptions db uid).filter (fun s =>
          s.status == "active" && s.billing_cycle == "monthly")).map
        (fun s => s.amount)).sum ∧
    (get_subscription_insights (get_user_subscriptions db uid)
        now).total_yearly_cost =
      (((get_user_subscriptions db uid).filter (fun s =>
          s.status == "active" && s.billing_cycle == "yearly")).map
        (fun s => s.amount)).sum ∧
    (get_subscription_insights (get_user_subscriptions db uid)
        now).annual_projection =
      (get_subscription_insights (get_user_subscriptions db uid)
          now).total_monthly_cost * 12 +
        (get_subscription_insights (get_user_subscriptions db uid)
          now).total_yearly_cost ∧
    (∀ w : Subscription, w.status = "active" → w.billing_cycle = "weekly" →
      (get_subscription_insights (w :: get_user_subscriptions db uid)
          now).total_monthly_cost =
        (get_subscription_insights (get_user_subscriptions db uid)
          now).total_monthly_cost ∧
      (get_subscription_insights (w :: get_user_subscriptions db uid)
          now).total_yearly_cost =
        (get_subscription_insights (get_user_subscriptions db uid)
          now).total_yearly_cost ∧
      (get_subscription_insights (w :: get_user_subscriptions db uid)
          now).annual_projection =
        (get_subscription_insights (get_user_subscriptions db uid)
          now).annual_projection) := by
  refine ⟨rfl, rfl, rfl, ?_⟩
  intro w hw hcyc
  refine ⟨?_, ?_, ?_⟩ <;> simp [get_subscription_insights, List.filter_cons,
    hw, hcyc]

/-- Witness for C5 with a concrete weekly-cycle active subscription
prepended to a concrete store's subscriptions. -/
theorem insights_totals_spec_witness :
    subWeekly.status = "active" ∧ subWeekly.billing_cycle = "weekly" ∧
    (get_subscription_insights (subWeekly :: get_user_subscriptions wDB
        "user-1") T0).annual_projection =
      (get_subscription_insights (get_user_subscriptions wDB "user-1")
        T0).annual_projection := by
  have h := (insights_totals_spec wDB "user-1" T0).2.2.2 subWeekly rfl rfl
  exact ⟨rfl, rfl, h.2.2⟩

/-- C6 (amended): the insights unused count tallies the user's
subscriptions of ANY status whose `last_used` is present and at least 31
whole days old (`(now - last_used).days > 30`, i.e. floor-of-days
semantics), not the active-only, strictly-older-than-30-days rule of the
unused-subscriptions operation. -/
theorem insights_unused_count_floor_days (db : Database) (uid : String)
    (now : Int) :
    (get_subscription_insights (get_user_subscriptions db uid)
        now).unused_subscriptions_count =
      ((get_user_subscriptions db uid).filter (fun s =>
        match s.last_used with
        | some t => decide (t ≤ now - 31 * secondsPerDay)
        | none => false)).length := by
  simp only [get_subscription_insights]
  congr 1
  apply List.filter_congr
  intro s _
  cases hl : s.last_used with
  | none => rfl
  | some t =>
      simp only [decide_eq_decide, secondsPerDay]
      rw [Int.fdiv_eq_ediv _ (by norm_num)]
      omega

/-- Counterexample to C6 as stated: a cancelled subscription last used 45
days ago is counted by the insights unused count but is not selected by the
unused-subscription detection rule at the 30-day threshold. -/
theorem insights_unused_count_ignores_status :
    (get_subscription_insights [subCancelledStale]
        T0).unused_subscriptions_count ≠
      (unused_filter [subCancelledStale] T0 30).length := by decide

end SubManager
